import Mathlib

/-!
Shallow embedding of the whatsapp-api gateway: the connection supervisor's
debounced restart logic, the per-operation timeout guard used by the HTTP
routes, the inbound-message filter and webhook payload construction, the
proxy configuration of backend construction, the API-key middleware, and
the multi-session registry (SessionManager).

JavaScript values that can be `undefined` are modelled as `Option String`;
JavaScript truthiness on strings (empty string is falsy) is modelled by
`truthy`.
-/

namespace WA

/-- JavaScript truthiness of a possibly-undefined string value:
`undefined` and the empty string are falsy. -/
def truthy : Option String → Bool
  | none => false
  | some s => s != ""

/-- JavaScript `a || b` on possibly-undefined string values. -/
def jsOr (a b : Option String) : Option String :=
  if truthy a then a else b

/-- Substring occurrence over character lists: does `sub` occur in the
list? -/
def containsSub (sub : List Char) : List Char → Bool
  | [] => sub.isEmpty
  | c :: rest => sub.isPrefixOf (c :: rest) || containsSub sub rest

/-- JavaScript `s.includes(sub)`: substring containment. -/
def jsIncludes (s sub : String) : Bool :=
  containsSub sub.data s.data

/-- JavaScript whitespace recognized by `String.prototype.trim`. -/
def isJsSpace (c : Char) : Bool :=
  c = ' ' || c = '\t' || c = '\n' || c = '\r'

/-- JavaScript `s.trim()` over a character list. -/
def trimChars (l : List Char) : List Char :=
  ((l.dropWhile isJsSpace).reverse.dropWhile isJsSpace).reverse

/-- JavaScript `s.split(sep)` for a one-character separator, over a
character list: `"".split(',')` gives `[""]`. -/
def splitList (sep : Char) : List Char → List (List Char)
  | [] => [[]]
  | c :: rest =>
      if c = sep then [] :: splitList sep rest
      else
        match splitList sep rest with
        | [] => [[c]]
        | h :: t => (c :: h) :: t

/-! ## Connection supervisor: debounced restart (`scheduleRestart`) -/

/-- The passive and active fault signals that invoke `scheduleRestart`:
`page.on('error')`, `page.on('close')`, `browser.on('disconnected')`,
`client.on('disconnected')`, and a watchdog probe timeout. -/
inductive FailureSignal
  | pageError
  | pageClose
  | browserDisconnected
  | clientDisconnected
  | watchdogTimeout
deriving DecidableEq

/-- Supervisor state: `restartTimerPending` models `restartTimer !== null`,
`clientReady` the global ready flag, and `teardowns` / `constructions`
count how many times `client.destroy()` / `createClient()` have run. -/
structure SupervisorState where
  restartTimerPending : Bool
  clientReady : Bool
  teardowns : Nat
  constructions : Nat
deriving DecidableEq

/-- `scheduleRestart()`: if a restart timer is already armed, return
immediately; otherwise arm the timer. -/
def scheduleRestart (s : SupervisorState) : SupervisorState :=
  if s.restartTimerPending then s
  else { s with restartTimerPending := true }

/-- Dispatch of one failure signal: `client.on('disconnected')` also clears
`clientReady`; every signal funnels into `scheduleRestart`. -/
def handleFailureSignal (s : SupervisorState) (sig : FailureSignal) : SupervisorState :=
  match sig with
  | .clientDisconnected => scheduleRestart { s with clientReady := false }
  | _ => scheduleRestart s

/-- Delivery of a sequence of failure signals, in order. -/
def deliverSignals (s : SupervisorState) (sigs : List FailureSignal) : SupervisorState :=
  sigs.foldl handleFailureSignal s

/-- Firing of the armed restart timer: clear the flag, tear the current
client down (errors swallowed), construct a new one. -/
def restartTimerFire (s : SupervisorState) : SupervisorState :=
  if s.restartTimerPending then
    { s with restartTimerPending := false,
             teardowns := s.teardowns + 1,
             constructions := s.constructions + 1 }
  else s

/-! ## Operation guard and the timeout-guarded message routes -/

/-- An asynchronous backend call: `resolvesAt = some t` means the promise
settles after `t` milliseconds with `result` (fulfilled on `.ok`, rejected
on `.error`); `resolvesAt = none` means it never settles. -/
structure AsyncOp (α : Type) where
  resolvesAt : Option Nat
  result : Except String α

/-- A bare `await op` with no deadline: `none` models the caller hanging
forever on an operation that never settles. -/
def awaitOp {α : Type} (op : AsyncOp α) : Option (Except String α) :=
  match op.resolvesAt with
  | none => none
  | some _ => some op.result

/-- `withTimeout(promise, ms)`: race the operation against a deadline
timer; the timer rejects with an operation-timed-out error. -/
def withTimeout {α : Type} (op : AsyncOp α) (ms : Nat) : Except String α :=
  match op.resolvesAt with
  | some t =>
      if t ≤ ms then op.result
      else .error ("Operation timed out after " ++ toString ms ++ "ms")
  | none => .error ("Operation timed out after " ++ toString ms ++ "ms")

/-- Outcome of an HTTP handler: a response with the given status code, or
no response at all (the request hangs forever). -/
inductive HandlerOutcome
  | responds (status : Nat)
  | hangs
deriving DecidableEq

/-- `POST /send-text` after auth/validation: the backend calls
(`getMessageById` + `reply` when `message_id_to_reply` is given, else
`sendMessage`) are awaited bare; a rejection is caught and answered 500,
success 200. -/
def sendTextHandler (messageIdToReply : Option String)
    (getMessageByIdOp replyOp sendMessageOp : AsyncOp String) : HandlerOutcome :=
  if truthy messageIdToReply then
    match awaitOp getMessageByIdOp with
    | none => .hangs
    | some (.error _) => .responds 500
    | some (.ok _) =>
      match awaitOp replyOp with
      | none => .hangs
      | some (.error _) => .responds 500
      | some (.ok _) => .responds 200
  else
    match awaitOp sendMessageOp with
    | none => .hangs
    | some (.error _) => .responds 500
    | some (.ok _) => .responds 200

/-- The media argument of `POST /send-media`: a URL (fetched through the
backend), a data-URI / base64 body (decoded synchronously), or a local
file path (read synchronously, possibly failing). -/
inductive MediaInput
  | url (fetchOp : AsyncOp String)
  | dataUri (data : String)
  | filePath (readResult : Except String String)

/-- Media loading phase of `POST /send-media`: a URL fetch is wrapped in
`withTimeout(…, 30000)`; the other branches are synchronous. -/
def loadMedia : MediaInput → Except String String
  | .url fetchOp => withTimeout fetchOp 30000
  | .dataUri d => .ok d
  | .filePath r => r

/-- `POST /send-media` after auth/validation: media-loading failure is
answered 400; the send is wrapped in `withTimeout(…, 180000)` and any
failure there is answered 504; success 200. In the reply branch the
`getMessageById` call is awaited bare while building the send promise. -/
def sendMediaHandler (input : MediaInput) (messageIdToReply : Option String)
    (getMessageByIdOp sendOp : AsyncOp String) : HandlerOutcome :=
  match loadMedia input with
  | .error _ => .responds 400
  | .ok _ =>
    if truthy messageIdToReply then
      match awaitOp getMessageByIdOp with
      | none => .hangs
      | some (.error _) => .responds 504
      | some (.ok _) =>
        match withTimeout sendOp 180000 with
        | .error _ => .responds 504
        | .ok _ => .responds 200
    else
      match withTimeout sendOp 180000 with
      | .error _ => .responds 504
      | .ok _ => .responds 200

/-- `POST /forward-message` after auth: missing fields are answered 400;
the `getMessageById` lookup is wrapped in `withTimeout(…, 10000)` and a
failure or absent message answered 404; `message.forward` is wrapped in
`withTimeout(…, 20000)` and a failure answered 504; success 200. -/
def forwardMessageHandler (messageId toChatId : Option String)
    (getMessageByIdOp : AsyncOp (Option Unit)) (forwardOp : AsyncOp Unit) :
    HandlerOutcome :=
  if !truthy messageId || !truthy toChatId then .responds 400
  else
    match withTimeout getMessageByIdOp 10000 with
    | .error _ => .responds 404
    | .ok none => .responds 404
    | .ok (some _) =>
      match withTimeout forwardOp 20000 with
      | .error _ => .responds 504
      | .ok _ => .responds 200

/-- `GET /sessions/:clientId/chats`: not-ready clients are answered 400;
`client.getChats()` is raced against a 30-second timer and any failure is
caught by the route's catch-all, answered 500; success 200. -/
def getChatsHandler (clientReady hasInfo : Bool)
    (getChatsOp : AsyncOp (List Unit)) : HandlerOutcome :=
  if !clientReady || !hasInfo then .responds 400
  else
    match withTimeout getChatsOp 30000 with
    | .error _ => .responds 500
    | .ok _ => .responds 200

/-! ## Message gateway: inbound filter and webhook payload -/

/-- The fields of an inbound `whatsapp-web.js` message the handler reads:
`id._serialized`, `body`, `from`, `to`, `hasQuotedMsg` and
`_data.quotedStanzaID`. -/
structure Msg where
  idSerialized : String
  body : String
  msgFrom : String
  msgTo : String
  hasQuotedMsg : Bool
  quotedStanzaID : Option String
deriving DecidableEq

/-- The environment variables the message handler reads, each possibly
undefined. -/
structure Env where
  HANDLE_MESSAGES : Option String
  ALLOWED_GROUPS : Option String
  ALLOW_PRIVATE_MESSAGES : Option String
  BOT_PHONE_NUMBER : Option String
  WHATSAPP_API_KEY : Option String
deriving DecidableEq

/-- `ALLOWED_GROUPS ? ALLOWED_GROUPS.split(',').map(trim) : [default]`:
the allowed-group list, with its hard-coded default when the variable is
unset or empty. -/
def allowedGroupsOf : Option String → List String
  | none => ["120363406850649153@g.us"]
  | some s =>
      if s = "" then ["120363406850649153@g.us"]
      else (splitList ',' s.data).map (fun l => String.mk (trimChars l))

/-- The exact wire shape forwarded to the webhook consumer. -/
structure WebhookPayload where
  message_id : String
  chat_id : String
  replied_message_id : Option String
  is_group : Bool
  message_text : String
deriving DecidableEq

/-- `msg.hasQuotedMsg ? msg._data.quotedStanzaID || null : null`, where
`x || null` maps a falsy (undefined or empty) id to `null`. -/
def repliedMessageIdOf (msg : Msg) : Option String :=
  if msg.hasQuotedMsg then
    if truthy msg.quotedStanzaID then msg.quotedStanzaID else none
  else none

/-- The webhook payload object built by the message handler. -/
def buildWebhookPayload (msg : Msg) : WebhookPayload :=
  { message_id := msg.idSerialized
    chat_id := msg.msgFrom
    replied_message_id := repliedMessageIdOf msg
    is_group := jsIncludes msg.msgFrom "@g.us"
    message_text := msg.body }

/-- A JSON value as `JSON.stringify` renders it for this payload. -/
inductive JVal
  | str (s : String)
  | bool (b : Bool)
  | null
deriving DecidableEq

/-- `JSON.stringify(webhookPayload)` field by field, in object insertion
order; a `null` field is serialized as `null`, never omitted. -/
def serializeWebhookPayload (p : WebhookPayload) : List (String × JVal) :=
  [("message_id", .str p.message_id),
   ("chat_id", .str p.chat_id),
   ("replied_message_id",
     match p.replied_message_id with
     | some s => .str s
     | none => .null),
   ("is_group", .bool p.is_group),
   ("message_text", .str p.message_text)]

/-- The body of `client.on('message', …)`: the short-circuiting filter
pipeline, returning the payload of the single webhook `POST` it performs,
or `none` when the event is dropped before delivery. -/
def handleMessage (env : Env) (msg : Msg) : Option WebhookPayload :=
  let allowedGroups := allowedGroupsOf env.ALLOWED_GROUPS
  let isGroup := jsIncludes msg.msgFrom "@g.us"
  let allowPrivateMessages := env.ALLOW_PRIVATE_MESSAGES == some "true"
  if !isGroup && !allowPrivateMessages then none
  else if isGroup && !(allowedGroups.contains msg.msgFrom) then none
  else if !truthy env.BOT_PHONE_NUMBER then none
  else if !truthy env.WHATSAPP_API_KEY then none
  else if some msg.msgTo = env.BOT_PHONE_NUMBER then
    some (buildWebhookPayload msg)
  else none

/-- The whole inbound path: the message handler is only registered when
`HANDLE_MESSAGES !== 'false'`; with it unregistered no event reaches the
pipeline. -/
def processInboundMessage (env : Env) (msg : Msg) : Option WebhookPayload :=
  if env.HANDLE_MESSAGES = some "false" then none
  else handleMessage env msg

/-! ## Proxy configuration of backend construction -/

/-- The launch flag injected for a proxy address. -/
def proxyArgOf (addr : String) : String :=
  "--proxy-server=" ++ addr

/-- The proxy block of the supervisor's `createClient` (the
`ProxyChain`-based variant): a configured proxy is always passed to
`ProxyChain.anonymizeProxy` (modelled by the `anonymizeProxy` parameter);
on success the anonymized address is pushed onto the puppeteer args, on
failure the error is logged and the raw address is pushed instead. -/
def createClientProxyArgs (proxyEnv : Option String)
    (anonymizeProxy : String → Except String String) (args : List String) :
    List String :=
  match proxyEnv with
  | none => args
  | some p =>
    if p = "" then args
    else
      match anonymizeProxy p with
      | .ok anonymized => args ++ [proxyArgOf anonymized]
      | .error _ => args ++ [proxyArgOf p]

/-- The proxy block of the simple gateway (`src/index.js`): no anonymizer
is involved; a proxy whose URI embeds credentials (contains `'@'`) is
pushed raw onto the puppeteer args, and any other proxy address is not
injected at all. -/
def indexProxyArgs (proxyEnv : Option String) (args : List String) : List String :=
  match proxyEnv with
  | none => args
  | some p =>
    if p = "" then args
    else if jsIncludes p "@" then args ++ [proxyArgOf p]
    else args

/-! ## API-key authentication middleware -/

/-- Result of the `authenticateAPI` middleware: respond 401 immediately,
or pass the request on to the next handler. -/
inductive AuthResult
  | unauthorized
  | next
deriving DecidableEq

/-- `authenticateAPI`: the provided key is
`req.headers['x-api-key'] || req.query.api_key`; a missing/empty key or a
key differing from the configured `WHATSAPP_API_KEY` is answered 401. -/
def authenticateAPI (configuredKey header queryKey : Option String) : AuthResult :=
  let provided := jsOr header queryKey
  if truthy provided = false then .unauthorized
  else if provided = configuredKey then .next
  else .unauthorized

/-- Outcome of one HTTP request to a route: the response status and
whether any backend operation ran while serving it. -/
structure RouteOutcome where
  status : Nat
  backendCalled : Bool
deriving DecidableEq

/-- A route mounted behind `authenticateAPI` (send-text, send-media,
forward-message, clear-group-messages, session initialize/logout): the
middleware runs first, and on failure the 401 is sent with no backend
operation ever running. -/
def runProtectedRoute (configuredKey header queryKey : Option String)
    (handler : RouteOutcome) : RouteOutcome :=
  match authenticateAPI configuredKey header queryKey with
  | .unauthorized => ⟨401, false⟩
  | .next => handler

/-! ## Session registry (`SessionManager`) -/

/-- The status field stored with each registry entry. -/
inductive SessionStatus
  | initializing
  | initialized
deriving DecidableEq

/-- `SessionManager` state: the `sessions` map (association list keyed by
client id), the configured maximum, and a count of how many backend
`Client` objects have been constructed. -/
structure Registry where
  sessions : List (String × SessionStatus)
  maxSessions : Nat
  clientsCreated : Nat
deriving DecidableEq

/-- `Map.prototype.set`: overwrite the entry when the key is present,
append otherwise. -/
def mapSet : List (String × SessionStatus) → String → SessionStatus →
    List (String × SessionStatus)
  | [], k, v => [(k, v)]
  | (k', v') :: rest, k, v =>
      if k' = k then (k, v) :: rest else (k', v') :: mapSet rest k v

/-- `Map.prototype.delete`: remove the entry with the given key. -/
def mapDelete : List (String × SessionStatus) → String →
    List (String × SessionStatus)
  | [], _ => []
  | (k', v') :: rest, k =>
      if k' = k then mapDelete rest k else (k', v') :: mapDelete rest k

/-- `Map.prototype.has`. -/
def mapHas : List (String × SessionStatus) → String → Bool
  | [], _ => false
  | (k', _) :: rest, k => k' == k || mapHas rest k

/-- `Map.prototype.get`, as the stored status. -/
def mapGet : List (String × SessionStatus) → String → Option SessionStatus
  | [], _ => none
  | (k', v') :: rest, k => if k' == k then some v' else mapGet rest k

/-- The errors `createSession` raises. -/
inductive CreateError
  | alreadyExists
  | maxSessionsReached
  | initializeFailed
deriving DecidableEq

/-- `SessionManager.createSession(clientId, skipExistingCheck)`: reject
when the id is present and the check is not skipped; reject when the
session count is at the maximum; otherwise construct a backend `Client`,
record the session as `initializing`, and initialize it — on success mark
it `initialized`, on failure delete the registry entry and rethrow.
`initializeOk` models whether `client.initialize()` resolves.  The result
pairs the post-call registry with the call's outcome. -/
def createSession (st : Registry) (clientId : String) (skipExistingCheck : Bool)
    (initializeOk : Bool) : Registry × Except CreateError Unit :=
  if !skipExistingCheck && mapHas st.sessions clientId then
    (st, .error .alreadyExists)
  else if st.maxSessions ≤ st.sessions.length then
    (st, .error .maxSessionsReached)
  else
    let st1 : Registry :=
      { st with sessions := mapSet st.sessions clientId .initializing,
                clientsCreated := st.clientsCreated + 1 }
    if initializeOk then
      ({ st1 with sessions := mapSet st1.sessions clientId .initialized }, .ok ())
    else
      ({ st1 with sessions := mapDelete st1.sessions clientId },
        .error .initializeFailed)

/-- `SessionManager.restoreExistingSessions()`: for each persisted session
id, call `createSession(id, true)`; each failure is logged and the loop
continues.  Returns the final registry and the per-id outcomes. -/
def restoreExistingSessions (st : Registry) (sessionIds : List String)
    (initializeOk : String → Bool) : Registry × List (Except CreateError Unit) :=
  sessionIds.foldl
    (fun acc id =>
      let r := createSession acc.1 id true (initializeOk id)
      (r.1, acc.2 ++ [r.2]))
    (st, [])

end WA

namespace WA

theorem handleFailureSignal_pending (s : SupervisorState) (sig : FailureSignal)
    (h : s.restartTimerPending = true) :
    (handleFailureSignal s sig).restartTimerPending = true ∧
    (handleFailureSignal s sig).teardowns = s.teardowns ∧
    (handleFailureSignal s sig).constructions = s.constructions := by
  cases sig <;> simp [handleFailureSignal, scheduleRestart, h]

theorem deliverSignals_pending (s : SupervisorState) (sigs : List FailureSignal)
    (h : s.restartTimerPending = true) :
    (deliverSignals s sigs).restartTimerPending = true ∧
    (deliverSignals s sigs).teardowns = s.teardowns ∧
    (deliverSignals s sigs).constructions = s.constructions := by
  induction sigs generalizing s with
  | nil => exact ⟨h, rfl, rfl⟩
  | cons sig rest ih =>
    have h1 := handleFailureSignal_pending s sig h
    have h2 := ih (handleFailureSignal s sig) h1.1
    refine ⟨h2.1, ?_, ?_⟩
    · rw [deliverSignals] at h2 ⊢
      simp only [List.foldl_cons]
      rw [h2.2.1, h1.2.1]
    · rw [deliverSignals] at h2 ⊢
      simp only [List.foldl_cons]
      rw [h2.2.2, h1.2.2]

/-- Claim C1: while a restart is already scheduled, every further failure
signal (page error, page close, browser disconnect, client disconnect,
watchdog timeout) leaves restart scheduling untouched — `scheduleRestart`
is a no-op — and when the one armed debounce timer fires, exactly one
restart cycle (one teardown followed by one reconstruction) runs. -/
theorem c1_scheduleRestart_debounce (s : SupervisorState) (sigs : List FailureSignal)
    (h : s.restartTimerPending = true) :
    (∀ t : SupervisorState, t.restartTimerPending = true → scheduleRestart t = t) ∧
    (deliverSignals s sigs).restartTimerPending = true ∧
    (deliverSignals s sigs).teardowns = s.teardowns ∧
    (deliverSignals s sigs).constructions = s.constructions ∧
    (restartTimerFire (deliverSignals s sigs)).teardowns = s.teardowns + 1 ∧
    (restartTimerFire (deliverSignals s sigs)).constructions = s.constructions + 1 := by
  have hd := deliverSignals_pending s sigs h
  refine ⟨fun t ht => by simp [scheduleRestart, ht], hd.1, hd.2.1, hd.2.2, ?_, ?_⟩
  · rw [restartTimerFire, if_pos hd.1, hd.2.1]
  · rw [restartTimerFire, if_pos hd.1, hd.2.2]

/-- Witness for C1 at a concrete state and a concrete burst of three
failure signals. -/
theorem c1_scheduleRestart_debounce_witness :
    (deliverSignals ⟨true, true, 0, 0⟩
        [FailureSignal.pageError, FailureSignal.clientDisconnected,
         FailureSignal.watchdogTimeout]).constructions = 0 ∧
    (restartTimerFire (deliverSignals ⟨true, true, 0, 0⟩
        [FailureSignal.pageError, FailureSignal.clientDisconnected,
         FailureSignal.watchdogTimeout])).constructions = 1 :=
  ⟨(c1_scheduleRestart_debounce ⟨true, true, 0, 0⟩ _ rfl).2.2.2.1,
   (c1_scheduleRestart_debounce ⟨true, true, 0, 0⟩ _ rfl).2.2.2.2.2⟩

/-- Counterexample to claim C2: `POST /send-text` does not wrap its
backend call in any deadline guard.  With a concrete `sendMessage` call
that never settles, the send-text handler hangs forever instead of
returning a 504-style gateway-timeout envelope. -/
theorem c2_sendText_unguarded_counterexample :
    sendTextHandler none ⟨none, Except.ok "mid"⟩ ⟨none, Except.ok "mid"⟩
        ⟨none, Except.ok "mid"⟩ = HandlerOutcome.hangs ∧
    sendTextHandler none ⟨none, Except.ok "mid"⟩ ⟨none, Except.ok "mid"⟩
        ⟨none, Except.ok "mid"⟩ ≠ HandlerOutcome.responds 504 := by
  constructor
  · rfl
  · decide

/-- Claim C2 as amended: `POST /send-media` guards its media fetch (30 s,
failure answered 400) and its send (180 s, failure answered 504);
`POST /forward-message` guards its lookup (10 s, failure answered 404)
and its forward (20 s, failure answered 504); chat enumeration is guarded
(30 s, failure answered 500); but `POST /send-text` awaits the backend
bare and hangs when the call never settles. -/
theorem c2_deadline_guards_amended
    (fetchOp sendOp textSendOp : AsyncOp String)
    (lookupOp : AsyncOp (Option Unit)) (forwardOp : AsyncOp Unit)
    (chatsOp : AsyncOp (List Unit))
    (h1 : fetchOp.resolvesAt = none) (h2 : sendOp.resolvesAt = none)
    (h3 : lookupOp.resolvesAt = none) (h4 : forwardOp.resolvesAt = none)
    (h5 : chatsOp.resolvesAt = none) (h6 : textSendOp.resolvesAt = none) :
    sendMediaHandler (.url fetchOp) none fetchOp sendOp = .responds 400 ∧
    sendMediaHandler (.dataUri "d") none fetchOp sendOp = .responds 504 ∧
    forwardMessageHandler (some "m") (some "c") lookupOp forwardOp = .responds 404 ∧
    forwardMessageHandler (some "m") (some "c") ⟨some 0, .ok (some ())⟩ forwardOp
      = .responds 504 ∧
    getChatsHandler true true chatsOp = .responds 500 ∧
    sendTextHandler none textSendOp textSendOp textSendOp = .hangs := by
  refine ⟨?_, ?_, ?_, ?_, ?_, ?_⟩
  · simp [sendMediaHandler, loadMedia, withTimeout, h1]
  · simp [sendMediaHandler, loadMedia, withTimeout, truthy, h2]
  · simp [forwardMessageHandler, withTimeout, truthy, h3]
  · simp [forwardMessageHandler, withTimeout, truthy, h4]
  · simp [getChatsHandler, withTimeout, h5]
  · simp [sendTextHandler, awaitOp, truthy, h6]

/-- Witness for the amended C2 at concrete never-settling operations. -/
theorem c2_deadline_guards_amended_witness :
    sendMediaHandler (.dataUri "d") none ⟨none, Except.ok "m"⟩ ⟨none, Except.ok "m"⟩
      = HandlerOutcome.responds 504 ∧
    forwardMessageHandler (some "m") (some "c") ⟨some 0, Except.ok (some ())⟩
      ⟨none, Except.ok ()⟩ = HandlerOutcome.responds 504 :=
  ⟨(c2_deadline_guards_amended ⟨none, Except.ok "m"⟩ ⟨none, Except.ok "m"⟩
      ⟨none, Except.ok "m"⟩ ⟨none, Except.ok (some ())⟩ ⟨none, Except.ok ()⟩
      ⟨none, Except.ok []⟩ rfl rfl rfl rfl rfl rfl).2.1,
   (c2_deadline_guards_amended ⟨none, Except.ok "m"⟩ ⟨none, Except.ok "m"⟩
      ⟨none, Except.ok "m"⟩ ⟨none, Except.ok (some ())⟩ ⟨none, Except.ok ()⟩
      ⟨none, Except.ok []⟩ rfl rfl rfl rfl rfl rfl).2.2.2.1⟩

/-- Counterexample to claim C3: an inbound event whose group id is in
`allowedGroupIds` triggers no webhook call when the event's recipient is
not the configured bot phone number — membership in the allowed list
alone does not yield exactly one webhook `POST`. -/
theorem c3_group_webhook_counterexample :
    (allowedGroupsOf (some "g1@g.us")).contains "g1@g.us" = true ∧
    jsIncludes "g1@g.us" "@g.us" = true ∧
    processInboundMessage ⟨none, some "g1@g.us", none, some "bot@c.us", some "k"⟩
      ⟨"MID1", "hello", "g1@g.us", "x@c.us", false, none⟩ = none := by
  decide

/-- Claim C3 as amended: an inbound event whose group id is absent from
`allowedGroupIds` triggers no webhook call; an event whose group id is in
the list triggers exactly one webhook `POST` — with a payload whose
`chat_id` is the event's chat id and `is_group` is true — provided
message handling is enabled, `BOT_PHONE_NUMBER` and `WHATSAPP_API_KEY`
are set, and the event's recipient is the configured bot phone number. -/
theorem c3_group_filter_amended (env : Env) (msg : Msg)
    (hgroup : jsIncludes msg.msgFrom "@g.us" = true) :
    ((allowedGroupsOf env.ALLOWED_GROUPS).contains msg.msgFrom = false →
      processInboundMessage env msg = none) ∧
    ((allowedGroupsOf env.ALLOWED_GROUPS).contains msg.msgFrom = true →
      env.HANDLE_MESSAGES ≠ some "false" →
      truthy env.BOT_PHONE_NUMBER = true →
      truthy env.WHATSAPP_API_KEY = true →
      env.BOT_PHONE_NUMBER = some msg.msgTo →
      processInboundMessage env msg = some (buildWebhookPayload msg) ∧
      (buildWebhookPayload msg).chat_id = msg.msgFrom ∧
      (buildWebhookPayload msg).is_group = true) := by
  constructor
  · intro habsent
    have habsent' : msg.msgFrom ∉ allowedGroupsOf env.ALLOWED_GROUPS := by
      simpa using habsent
    simp [processInboundMessage, handleMessage, hgroup, habsent']
  · intro hmem hreg hbot hkey hto
    have hmem' : msg.msgFrom ∈ allowedGroupsOf env.ALLOWED_GROUPS := by
      simpa using hmem
    have hbot' : truthy (some msg.msgTo) = true := hto ▸ hbot
    refine ⟨?_, rfl, ?_⟩
    · simp [processInboundMessage, handleMessage, hgroup, hmem', hreg, hkey, hto,
        hbot']
    · simp [buildWebhookPayload, hgroup]

/-- Witness for the amended C3 at a concrete allowed-group event addressed
to the configured bot identity. -/
theorem c3_group_filter_amended_witness :
    processInboundMessage ⟨none, some "g1@g.us", none, some "bot@c.us", some "k"⟩
      ⟨"MID1", "hello", "g1@g.us", "bot@c.us", false, none⟩ =
      some (buildWebhookPayload ⟨"MID1", "hello", "g1@g.us", "bot@c.us", false, none⟩) :=
  ((c3_group_filter_amended ⟨none, some "g1@g.us", none, some "bot@c.us", some "k"⟩
      ⟨"MID1", "hello", "g1@g.us", "bot@c.us", false, none⟩ (by decide)).2
    (by decide) (by decide) (by decide) (by decide) (by decide)).1

/-- Claim C4: an inbound event that is not a group message is dropped at
the audience-scoping step — no webhook call — whenever
`ALLOW_PRIVATE_MESSAGES` is not enabled. -/
theorem c4_private_message_dropped (env : Env) (msg : Msg)
    (hpriv : jsIncludes msg.msgFrom "@g.us" = false)
    (hflag : env.ALLOW_PRIVATE_MESSAGES ≠ some "true") :
    processInboundMessage env msg = none := by
  have hb : (env.ALLOW_PRIVATE_MESSAGES == some "true") = false := by
    simpa using hflag
  simp [processInboundMessage, handleMessage, hpriv, hb]

/-- Witness for C4 at a concrete private message with the flag unset. -/
theorem c4_private_message_dropped_witness :
    processInboundMessage ⟨none, none, none, some "bot@c.us", some "k"⟩
      ⟨"MID2", "hi", "15551234@c.us", "bot@c.us", false, none⟩ = none :=
  c4_private_message_dropped ⟨none, none, none, some "bot@c.us", some "k"⟩
    ⟨"MID2", "hi", "15551234@c.us", "bot@c.us", false, none⟩ (by decide) (by decide)

/-- Claim C7: the payload built from an event with no quoted message
serializes `replied_message_id` as an explicit `null` field (present,
never omitted), while `message_id`, `chat_id`, `is_group` and
`message_text` are taken from the event. -/
theorem c7_replied_message_id_null (msg : Msg)
    (h : msg.hasQuotedMsg = false ∨ msg.quotedStanzaID = none) :
    (serializeWebhookPayload (buildWebhookPayload msg)).lookup "replied_message_id"
      = some JVal.null ∧
    ("replied_message_id", JVal.null) ∈ serializeWebhookPayload (buildWebhookPayload msg) ∧
    (serializeWebhookPayload (buildWebhookPayload msg)).lookup "message_id"
      = some (JVal.str msg.idSerialized) ∧
    (serializeWebhookPayload (buildWebhookPayload msg)).lookup "chat_id"
      = some (JVal.str msg.msgFrom) ∧
    (serializeWebhookPayload (buildWebhookPayload msg)).lookup "is_group"
      = some (JVal.bool (jsIncludes msg.msgFrom "@g.us")) ∧
    (serializeWebhookPayload (buildWebhookPayload msg)).lookup "message_text"
      = some (JVal.str msg.body) := by
  have hrep : repliedMessageIdOf msg = none := by
    rcases h with h | h
    · simp [repliedMessageIdOf, h]
    · simp [repliedMessageIdOf, h, truthy]
  refine ⟨?_, ?_, ?_, ?_, ?_, ?_⟩ <;>
    simp [serializeWebhookPayload, buildWebhookPayload, hrep, List.lookup]

/-- Witness for C7 at a concrete unquoted message. -/
theorem c7_replied_message_id_null_witness :
    (serializeWebhookPayload (buildWebhookPayload
        ⟨"MID3", "hey", "g1@g.us", "bot@c.us", false, none⟩)).lookup
      "replied_message_id" = some JVal.null :=
  (c7_replied_message_id_null ⟨"MID3", "hey", "g1@g.us", "bot@c.us", false, none⟩
    (Or.inl rfl)).1

theorem mapGet_cons_ne (k' : String) (v' : SessionStatus)
    (m : List (String × SessionStatus)) (k : String) (h : k' ≠ k) :
    mapGet ((k', v') :: m) k = mapGet m k := by
  have hb : (k' == k) = false := by simp [h]
  simp [mapGet, hb]

theorem mapGet_mapSet_self (m : List (String × SessionStatus)) (k : String)
    (v : SessionStatus) : mapGet (mapSet m k v) k = some v := by
  induction m with
  | nil => simp [mapSet, mapGet]
  | cons e rest ih =>
    obtain ⟨k', v'⟩ := e
    by_cases h : k' = k
    · subst h; simp [mapSet, mapGet]
    · have hb : (k' == k) = false := by simp [h]
      simp [mapSet, h, mapGet, hb, ih]

theorem mapGet_mapDelete_self (m : List (String × SessionStatus)) (k : String) :
    mapGet (mapDelete m k) k = none := by
  induction m with
  | nil => rfl
  | cons e rest ih =>
    obtain ⟨k', v'⟩ := e
    by_cases h : k' = k
    · simpa [mapDelete, h] using ih
    · simp only [mapDelete, if_neg h]
      rw [mapGet_cons_ne k' v' _ k h]
      exact ih

theorem mapHas_mapSet_self (m : List (String × SessionStatus)) (k : String)
    (v : SessionStatus) : mapHas (mapSet m k v) k = true := by
  induction m with
  | nil => simp [mapSet, mapHas]
  | cons e rest ih =>
    obtain ⟨k', v'⟩ := e
    by_cases h : k' = k
    · simp [mapSet, h, mapHas]
    · simp [mapSet, h, mapHas, ih]

theorem mapSet_keys_of_mem (m : List (String × SessionStatus)) (k : String)
    (v : SessionStatus) (h : mapHas m k = true) :
    (mapSet m k v).map Prod.fst = m.map Prod.fst := by
  induction m with
  | nil => simp [mapHas] at h
  | cons e rest ih =>
    obtain ⟨k', v'⟩ := e
    by_cases hk : k' = k
    · subst hk; simp [mapSet]
    · have hb : (k' == k) = false := by simp [hk]
      have h' : mapHas rest k = true := by
        simpa [mapHas, hb] using h
      simp [mapSet, hk, ih h']

/-- Claim C5: `createSession(id)` without the restore bypass fails with a
conflict when the id is already present, leaving the registry untouched
(never silently replacing the first session); fails with a limit error
when the count is at or above the configured maximum; and otherwise
records the new session under that id. -/
theorem c5_createSession_conflict_and_limit (st : Registry) (id : String)
    (initOk : Bool) :
    (mapHas st.sessions id = true →
      createSession st id false initOk = (st, .error .alreadyExists)) ∧
    (mapHas st.sessions id = false → st.maxSessions ≤ st.sessions.length →
      createSession st id false initOk = (st, .error .maxSessionsReached)) ∧
    (mapHas st.sessions id = false → st.sessions.length < st.maxSessions →
      initOk = true →
      (createSession st id false initOk).2 = .ok () ∧
      mapGet (createSession st id false initOk).1.sessions id
        = some .initialized) := by
  refine ⟨fun h => ?_, fun h1 h2 => ?_, fun h1 h2 h3 => ?_⟩
  · simp [createSession, h]
  · simp [createSession, h1, h2]
  · subst h3
    simp [createSession, h1, Nat.not_le.mpr h2, mapGet_mapSet_self]

/-- Witness for C5: a duplicate create conflicts and leaves the registry
unchanged; a create at capacity hits the limit; a fresh create records
the session. -/
theorem c5_createSession_conflict_and_limit_witness :
    createSession ⟨[("phone1", SessionStatus.initialized)], 10, 1⟩ "phone1" false true
      = (⟨[("phone1", SessionStatus.initialized)], 10, 1⟩,
         Except.error CreateError.alreadyExists) ∧
    createSession ⟨[("a", SessionStatus.initialized)], 1, 1⟩ "b" false true
      = (⟨[("a", SessionStatus.initialized)], 1, 1⟩,
         Except.error CreateError.maxSessionsReached) ∧
    mapGet (createSession ⟨[], 10, 0⟩ "c" false true).1.sessions "c"
      = some SessionStatus.initialized :=
  ⟨(c5_createSession_conflict_and_limit ⟨[("phone1", SessionStatus.initialized)], 10, 1⟩
      "phone1" true).1 (by decide),
   (c5_createSession_conflict_and_limit ⟨[("a", SessionStatus.initialized)], 1, 1⟩
      "b" true).2.1 (by decide) (by decide),
   ((c5_createSession_conflict_and_limit ⟨[], 10, 0⟩ "c" true).2.2
      (by decide) (by decide) rfl).2⟩

/-- Counterexample to claim C6: running the startup restore twice does not
make the second run hit an "already exists" condition — the restore path
passes the bypass flag, so the second run's outcome for the persisted id
is success, and a second backend client is constructed for it
(`clientsCreated` goes from 1 to 2) instead of keeping the single
original handle. -/
theorem c6_restore_twice_counterexample :
    (restoreExistingSessions ⟨[], 10, 0⟩ ["phone1"] (fun _ => true)).1.clientsCreated
      = 1 ∧
    (restoreExistingSessions
        (restoreExistingSessions ⟨[], 10, 0⟩ ["phone1"] (fun _ => true)).1
        ["phone1"] (fun _ => true)).2 = [Except.ok ()] ∧
    (restoreExistingSessions
        (restoreExistingSessions ⟨[], 10, 0⟩ ["phone1"] (fun _ => true)).1
        ["phone1"] (fun _ => true)).1.clientsCreated = 2 :=
  ⟨rfl, rfl, rfl⟩

/-- Claim C6 as amended: running the restore twice leaves exactly one
registry entry per persisted id and raises nothing, but because the
restore passes the existence-check bypass, the second run's
`createSession` succeeds rather than encountering "already exists" and —
when capacity allows — constructs a fresh backend client that overwrites
the recorded one (the prior backend handle is replaced, not kept). -/
theorem c6_restore_second_run_amended (st : Registry) (id : String)
    (hpresent : mapHas st.sessions id = true)
    (hcap : st.sessions.length < st.maxSessions) :
    (createSession st id true true).2 = .ok () ∧
    (createSession st id true true).2 ≠ .error .alreadyExists ∧
    (createSession st id true true).1.sessions.map Prod.fst
      = st.sessions.map Prod.fst ∧
    mapGet (createSession st id true true).1.sessions id = some .initialized ∧
    (createSession st id true true).1.clientsCreated = st.clientsCreated + 1 := by
  have hle := Nat.not_le.mpr hcap
  have hkeys1 := mapSet_keys_of_mem st.sessions id SessionStatus.initializing hpresent
  have hkeys2 := mapSet_keys_of_mem (mapSet st.sessions id SessionStatus.initializing)
    id SessionStatus.initialized (mapHas_mapSet_self _ _ _)
  refine ⟨?_, ?_, ?_, ?_, ?_⟩ <;>
    simp [createSession, hle, hkeys1, hkeys2, mapGet_mapSet_self]

/-- Witness for the amended C6 at a concrete one-session registry. -/
theorem c6_restore_second_run_amended_witness :
    (createSession ⟨[("phone1", SessionStatus.initialized)], 10, 1⟩ "phone1"
        true true).1.clientsCreated = 2 ∧
    (createSession ⟨[("phone1", SessionStatus.initialized)], 10, 1⟩ "phone1"
        true true).2 = Except.ok () :=
  ⟨(c6_restore_second_run_amended ⟨[("phone1", SessionStatus.initialized)], 10, 1⟩
      "phone1" (by decide) (by decide)).2.2.2.2,
   (c6_restore_second_run_amended ⟨[("phone1", SessionStatus.initialized)], 10, 1⟩
      "phone1" (by decide) (by decide)).1⟩

/-- Counterexample to claim C8: in the supervisor's `createClient` a proxy
URI with embedded credentials does not bypass the anonymization step —
the anonymized address, not the raw one, is injected; and in the simple
gateway variant a proxy without embedded credentials is not injected at
all, so no wrapping-and-injection happens there either. -/
theorem c8_proxy_counterexample :
    createClientProxyArgs (some "http://u:p@h:1")
        (fun _ => Except.ok "http://127.0.0.1:8") [] =
      [proxyArgOf "http://127.0.0.1:8"] ∧
    createClientProxyArgs (some "http://u:p@h:1")
        (fun _ => Except.ok "http://127.0.0.1:8") [] ≠
      [proxyArgOf "http://u:p@h:1"] ∧
    jsIncludes "http://u:p@h:1" "@" = true ∧
    indexProxyArgs (some "http://h:1") [] = [] := by
  refine ⟨rfl, ?_, rfl, rfl⟩
  decide

/-- Claim C8 as amended: in the supervisor's `createClient` every
configured proxy — embedded credentials or not — is passed to the
anonymizer and the result injected exactly once; anonymization failure
falls back to injecting the raw address, so construction never fails on
it.  In the simple gateway variant no anonymizer runs: an address with
embedded credentials is injected raw and any other address is dropped. -/
theorem c8_proxy_amended (p : String) (hp : p ≠ "")
    (anonymizeProxy : String → Except String String) (args : List String) :
    (∀ a, anonymizeProxy p = .ok a →
      createClientProxyArgs (some p) anonymizeProxy args
        = args ++ [proxyArgOf a]) ∧
    (∀ e, anonymizeProxy p = .error e →
      createClientProxyArgs (some p) anonymizeProxy args
        = args ++ [proxyArgOf p]) ∧
    (jsIncludes p "@" = true →
      indexProxyArgs (some p) args = args ++ [proxyArgOf p]) ∧
    (jsIncludes p "@" = false → indexProxyArgs (some p) args = args) := by
  refine ⟨fun a ha => ?_, fun e he => ?_, fun h => ?_, fun h => ?_⟩
  · simp [createClientProxyArgs, hp, ha]
  · simp [createClientProxyArgs, hp, he]
  · simp [indexProxyArgs, hp, h]
  · simp [indexProxyArgs, hp, h]

/-- Witness for the amended C8 at a concrete credentialed proxy and a
successful anonymizer. -/
theorem c8_proxy_amended_witness :
    createClientProxyArgs (some "http://u:p@h:1") (fun _ => Except.ok "anon") []
      = [proxyArgOf "anon"] :=
  (c8_proxy_amended "http://u:p@h:1" (by decide) (fun _ => Except.ok "anon") []).1
    "anon" rfl

/-- Claim C9: a request to an API-key-protected route with no key in the
`x-api-key` header or `api_key` query parameter, or with a key differing
from the configured `WHATSAPP_API_KEY`, is answered 401 before any
backend operation runs; with `WHATSAPP_API_KEY` unset every request to
these routes is answered 401. -/
theorem c9_auth_rejects_unauthenticated (configuredKey header queryKey : Option String)
    (handler : RouteOutcome) :
    (header = none → queryKey = none →
      runProtectedRoute configuredKey header queryKey handler = ⟨401, false⟩) ∧
    (jsOr header queryKey ≠ configuredKey →
      runProtectedRoute configuredKey header queryKey handler = ⟨401, false⟩) ∧
    (configuredKey = none →
      runProtectedRoute configuredKey header queryKey handler = ⟨401, false⟩) := by
  refine ⟨fun h1 h2 => ?_, fun hne => ?_, fun hcfg => ?_⟩
  · subst h1; subst h2; rfl
  · rw [runProtectedRoute, authenticateAPI]
    by_cases ht : truthy (jsOr header queryKey) = false
    · simp [ht]
    · simp [ht, hne]
  · subst hcfg
    rw [runProtectedRoute, authenticateAPI]
    by_cases ht : truthy (jsOr header queryKey) = false
    · simp [ht]
    · have hn : jsOr header queryKey ≠ none := by
        intro hnone
        rw [hnone] at ht
        exact ht rfl
      simp [ht, hn]

/-- Witness for C9: a wrong key is answered 401, and with the configured
key unset any provided key is answered 401; in both cases no backend
operation runs. -/
theorem c9_auth_rejects_unauthenticated_witness :
    runProtectedRoute (some "secret") (some "wrong") none ⟨200, true⟩ = ⟨401, false⟩ ∧
    runProtectedRoute none (some "anykey") none ⟨200, true⟩ = ⟨401, false⟩ :=
  ⟨(c9_auth_rejects_unauthenticated (some "secret") (some "wrong") none
      ⟨200, true⟩).2.1 (by decide),
   (c9_auth_rejects_unauthenticated none (some "anykey") none ⟨200, true⟩).2.2 rfl⟩

/-- Claim C10: when `createSession` passes its existence and capacity
guards, it is atomic with respect to the registry — either
initialization succeeds and the session is recorded as `initialized`
under the id, or initialization fails and the entry is removed before
the error propagates, leaving no session registered under the id. -/
theorem c10_createSession_atomic (st : Registry) (id : String) (skip : Bool)
    (initOk : Bool)
    (hnc : (!skip && mapHas st.sessions id) = false)
    (hcap : st.sessions.length < st.maxSessions) :
    (initOk = true →
      (createSession st id skip initOk).2 = .ok () ∧
      mapGet (createSession st id skip initOk).1.sessions id
        = some .initialized) ∧
    (initOk = false →
      (createSession st id skip initOk).2 = .error .initializeFailed ∧
      mapGet (createSession st id skip initOk).1.sessions id = none) := by
  have hle := Nat.not_le.mpr hcap
  constructor
  · rintro rfl
    simp [createSession, hnc, hle, mapGet_mapSet_self]
  · rintro rfl
    simp [createSession, hnc, hle, mapGet_mapDelete_self]

/-- Witness for C10: a failed initialization leaves no entry behind. -/
theorem c10_createSession_atomic_witness :
    (createSession ⟨[], 10, 0⟩ "p" false false).2
      = Except.error CreateError.initializeFailed ∧
    mapGet (createSession ⟨[], 10, 0⟩ "p" false false).1.sessions "p" = none :=
  (c10_createSession_atomic ⟨[], 10, 0⟩ "p" false false (by decide) (by decide)).2 rfl

end WA
